import Mathlib

/-!
Verification of the converse-chronicle recording service and client detail
view.  The backend handlers in `src/backend/src/controllers.ts` are embedded
as pure Lean functions over an explicit state (temporary files, object
storage, database rows), with the external services (audio duration probe,
transcription API, presigned-URL generation, clocks, id generation) supplied
as an environment of oracles.  The playback-status callback of
`src/frontend/app/components/RecordingDetails.tsx` is embedded as a pure
state-transition function.
-/

namespace ConverseChronicle

/-- Audio bytes, kept abstract as a string of bytes. -/
abbrev Buffer := String

/-- Error values carried by rejected promises. -/
abbrev Err := String

/-- Modelled from the spec: `constant.ts` is not among the sources; the spec
fixes "a fixed audio file extension" and the client saves files as `.m4a`. -/
def FILE_EXTENSION : String := ".m4a"

/-- Modelled from the spec: `constant.ts` is not among the sources; the spec
fixes "one bucket" for object storage. -/
def BUCKET_NAME : String := "recordings"

/-- `os.tmpdir()`: the system temporary directory. -/
def tmpdir : String := "/tmp"

/-- `path.join` restricted to two components, as used by `createRecording`. -/
def joinPath (a b : String) : String := a ++ "/" ++ b

/-- JavaScript `Math.round`: round half toward positive infinity. -/
def jsRound (x : Rat) : Int := Rat.floor (x + 1/2)

/-- One element of `allUtterances` in the transcription result.  The source
field `end` is a Lean keyword and is rendered `stop`. -/
structure UttData where
  speaker : String
  transcript : String
  start : Rat
  stop : Rat
deriving Repr, DecidableEq

/-- The object returned by `transcribeFile` (fields destructured at
`controllers.ts:30-35`).  Optional fields are absent when the service
supplies nothing. -/
structure TranscribeResult where
  transcript : String
  title : Option String
  shortSummary : Option String
  allTopics : Option (List String)
  allIntents : Option (List String)
  allUtterances : Option (List UttData)
deriving Repr, DecidableEq

/-- A Topic child row. -/
structure Topic where
  topic : String
deriving Repr, DecidableEq

/-- An Utterance child row (source field `end` rendered `stop`). -/
structure Utterance where
  speaker : String
  transcript : String
  start : Rat
  stop : Rat
deriving Repr, DecidableEq

/-- A Conversation (Recording) row, with its child collections inlined. -/
structure Conversation where
  id : String
  title : String
  userId : String
  recording_url : String
  file_path : String
  transcript : String
  summary : String
  topics : List Topic
  utterances : List Utterance
  duration : Int
  createdAt : Nat
  updatedAt : Nat
deriving Repr, DecidableEq

/-- The relational database: the set of Conversation rows. -/
structure DB where
  conversations : List Conversation
deriving Repr, DecidableEq

/-- One object stored in the bucket: (bucket, path, bytes). -/
structure StoredObject where
  bucket : String
  path : String
  bytes : Buffer
deriving Repr, DecidableEq

/-- The world state a handler invocation reads and writes: the set of files
in the temporary directory, the object store, and the database. -/
structure St where
  fs : List String
  storage : List StoredObject
  db : DB
deriving Repr, DecidableEq

/-- The oracles a `createRecording` invocation consumes: the outcome of
`getAudioDurationInSeconds`, the outcome of `transcribeFile`, the two
`uuid()` draws, the current date string and clock reading, and the
presigned-URL generator of the storage client. -/
structure Env where
  probeResult : Except Err Rat
  transcribeResult : Except Err TranscribeResult
  tempName : String
  newRecordingId : String
  nowDate : String
  now : Nat
  presign : String → String → String

/-- `CreateRequest` from `model.ts`, fields as destructured at
`controllers.ts:14`. -/
structure CreateRequest where
  userId : String
  recordingBody : Buffer
deriving Repr, DecidableEq

/-- `GetRequest` from `model.ts`, fields as destructured at
`controllers.ts:78`. -/
structure GetRequest where
  recordingId : String
deriving Repr, DecidableEq

/-- `ListRequest` from `model.ts`, fields as destructured at
`controllers.ts:98`. -/
structure ListRequest where
  userId : String
deriving Repr, DecidableEq

/-- `DeleteRequest` from `model.ts`, fields as destructured at
`controllers.ts:115`. -/
structure DeleteRequest where
  recordingId : String
deriving Repr, DecidableEq

/-- `UpdateRequest` from `model.ts`, fields as destructured at
`controllers.ts:126`; `title` and `transcript` may be absent. -/
structure UpdateRequest where
  recordingId : String
  title : Option String
  transcript : Option String
deriving Repr, DecidableEq

/-- The value returned by `createRecording` on success: the spread of the
stored row (`...newRecording`) together with `filePath` (the re-listed
`transcript` and `summary` of `controllers.ts:72-73` coincide with the
row's fields and are not duplicated here). -/
structure CreateResponse where
  recording : Conversation
  filePath : String
deriving Repr, DecidableEq

/-- The value returned by `getRecording` when the row exists: the spread of
the row plus the freshly minted `recordingUrl`. -/
structure GetResponse where
  conversation : Conversation
  recordingUrl : String
deriving Repr, DecidableEq

/-- `listRecordings` projection: the fields named in the `select` clause at
`controllers.ts:102-109`, and no others. -/
structure ListItem where
  id : String
  title : String
  topics : List Topic
  createdAt : Nat
  updatedAt : Nat
  duration : Int
deriving Repr, DecidableEq

/-- `fs.promises.writeFile`: the path becomes present in the directory. -/
def writeFile (st : St) (path : String) : St :=
  { st with fs := path :: st.fs }

/-- `fs.promises.unlink`: the path is removed from the directory. -/
def unlink (st : St) (path : String) : St :=
  { st with fs := st.fs.filter (fun p => p ≠ path) }

/-- `prisma.conversation.findUnique`: the row with the given id, if any. -/
def findUnique (db : DB) (id : String) : Option Conversation :=
  db.conversations.find? (fun c => c.id = id)

/-- `createRecording` (`controllers.ts:13-75`).  Returns the outcome of the
invocation together with the final world state; a `.error` outcome is the
unhandled rejection the handler propagates.  The steps mirror the source:
write the scratch file, probe the duration (rounding with `Math.round`),
unlink the scratch file, transcribe, upload to storage, insert the row with
its children in one composed write. -/
def createRecording (env : Env) (req : CreateRequest) (st : St) :
    Except Err CreateResponse × St :=
  let tempFilePath := joinPath tmpdir (env.tempName ++ FILE_EXTENSION)
  let st1 := writeFile st tempFilePath
  match env.probeResult with
  | .error e => (.error e, st1)
  | .ok secs =>
    let durationInSeconds := jsRound secs
    let st2 := unlink st1 tempFilePath
    match env.transcribeResult with
    | .error e => (.error e, st2)
    | .ok tr =>
      let recordingId := env.newRecordingId
      let filePath := req.userId ++ "/" ++ recordingId ++ FILE_EXTENSION
      let st3 := { st2 with
        storage := ⟨BUCKET_NAME, filePath, req.recordingBody⟩ :: st2.storage }
      let newRecording : Conversation := {
        id := recordingId
        title := tr.title.getD ("conversation_" ++ env.nowDate)
        userId := req.userId
        recording_url := ""
        file_path := filePath
        transcript := tr.transcript
        summary := tr.shortSummary.getD ""
        topics :=
          match tr.allTopics with
          | some ts => ts.map (fun t => ⟨t⟩)
          | none => []
        utterances :=
          match tr.allUtterances with
          | some us => us.map (fun u => ⟨u.speaker, u.transcript, u.start, u.stop⟩)
          | none => []
        duration := durationInSeconds
        createdAt := env.now
        updatedAt := env.now }
      let st4 := { st3 with db := ⟨newRecording :: st3.db.conversations⟩ }
      (.ok ⟨newRecording, filePath⟩, st4)

/-- `getRecording` (`controllers.ts:77-95`): read the row with its children;
if found, attach a presigned URL minted from the row's `file_path`; if not
found, return the absent result.  The handler itself never rejects. -/
def getRecording (env : Env) (req : GetRequest) (st : St) :
    Except Err (Option GetResponse) :=
  match findUnique st.db req.recordingId with
  | some conversation =>
      .ok (some ⟨conversation, env.presign BUCKET_NAME conversation.file_path⟩)
  | none => .ok none

/-- The `select` projection of `listRecordings` applied to one row. -/
def listProject (c : Conversation) : ListItem :=
  ⟨c.id, c.title, c.topics, c.createdAt, c.updatedAt, c.duration⟩

/-- `listRecordings` (`controllers.ts:97-112`): all rows of the user,
projected to id, title, topics, createdAt, updatedAt, duration. -/
def listRecordings (req : ListRequest) (st : St) : List ListItem :=
  (st.db.conversations.filter (fun c => c.userId = req.userId)).map listProject

/-- `prisma.conversation.delete`: removes the row and returns it; rejects
with the ORM's not-found error when no row has the id. -/
def prismaDelete (db : DB) (id : String) : Except Err (Conversation × DB) :=
  match db.conversations.find? (fun c => c.id = id) with
  | some c => .ok (c, ⟨db.conversations.filter (fun c => c.id ≠ id)⟩)
  | none => .error "P2025: record to delete does not exist"

/-- `deleteRecording` (`controllers.ts:114-122`): delete the row, with no
catch around the persistence call.  Returns the outcome and the final
state. -/
def deleteRecording (req : DeleteRequest) (st : St) :
    Except Err Conversation × St :=
  match prismaDelete st.db req.recordingId with
  | .ok (c, db) => (.ok c, { st with db := db })
  | .error e => (.error e, st)

/-- `prisma.conversation.update`: overwrite only the supplied fields on the
row with the given id (the ORM's partial-update semantics skip absent
fields); rejects when no row has the id. -/
def prismaUpdate (db : DB) (id : String)
    (title transcript : Option String) : Except Err (Conversation × DB) :=
  match db.conversations.find? (fun c => c.id = id) with
  | some c =>
    let c2 := { c with
      title := title.getD c.title
      transcript := transcript.getD c.transcript }
    .ok (c2, ⟨db.conversations.map (fun r => if r.id = id then c2 else r)⟩)
  | none => .error "P2025: record to update not found"

/-- `updateRecording` (`controllers.ts:125-136`): pass the optional title
and transcript straight to the persistence call. -/
def updateRecording (req : UpdateRequest) (st : St) :
    Except Err Conversation × St :=
  match prismaUpdate st.db req.recordingId req.title req.transcript with
  | .ok (c, db) => (.ok c, { st with db := db })
  | .error e => (.error e, st)

/-- Client detail view player state: the observed position and duration in
milliseconds and the "playing" flag. -/
structure PlayerState where
  position : Nat
  duration : Nat
  isPlaying : Bool
deriving Repr, DecidableEq

/-- The playback status delivered to the `Audio.Sound.createAsync` callback
(`RecordingDetails.tsx:97-106`): `durationMillis` may be absent. -/
structure PlaybackStatus where
  isLoaded : Bool
  positionMillis : Nat
  durationMillis : Option Nat
  didJustFinish : Bool
deriving Repr, DecidableEq

/-- The playback-status callback (`RecordingDetails.tsx:97-106`): when the
status is loaded, set position from `positionMillis` and duration from
`durationMillis || 0`; when the status is loaded and reports that playback
just finished, clear the playing flag. -/
def onPlaybackStatusUpdate (status : PlaybackStatus) (s : PlayerState) :
    PlayerState :=
  let s1 :=
    if status.isLoaded then
      { s with
        position := status.positionMillis
        duration := status.durationMillis.getD 0 }
    else s
  if status.isLoaded && status.didJustFinish then
    { s1 with isPlaying := false }
  else s1

/-! ### Concrete sample values, used by witnesses and counterexamples -/

/-- A transcription result that supplies no title. -/
def sampleTr : TranscribeResult :=
  ⟨"hi", none, some "s", some ["greeting"], none, some [⟨"A", "hi", 0, 1⟩]⟩

/-- A transcription result supplying a title but no topic or utterance
lists. -/
def trNoChildren : TranscribeResult :=
  ⟨"hi", some "T", none, none, none, none⟩

/-- An environment in which every external call succeeds. -/
def sampleEnv : Env :=
  { probeResult := .ok 42
    transcribeResult := .ok sampleTr
    tempName := "tmp1"
    newRecordingId := "rec1"
    nowDate := "1/1/2026"
    now := 100
    presign := fun b p => "https://signed/" ++ b ++ "/" ++ p }

/-- An environment in which the duration probe rejects. -/
def envProbeFail : Env := { sampleEnv with probeResult := .error "probe failed" }

/-- An environment whose transcription result has no topic/utterance lists. -/
def envNoChildren : Env := { sampleEnv with transcribeResult := .ok trNoChildren }

/-- A sample creation request. -/
def sampleReq : CreateRequest := ⟨"user1", "bytes"⟩

/-- The empty world state. -/
def st0 : St := ⟨[], [], ⟨[]⟩⟩

/-- A sample stored row. -/
def row1 : Conversation :=
  { id := "rec1", title := "t1", userId := "user1", recording_url := "u"
    file_path := "user1/rec1.m4a", transcript := "tr1", summary := "s1"
    topics := [⟨"greeting"⟩], utterances := [], duration := 5
    createdAt := 1, updatedAt := 2 }

/-- A world state holding exactly `row1`. -/
def stRow1 : St := ⟨[], [], ⟨[row1]⟩⟩

/-- Replace the stored `recording_url` of the row with the given id. -/
def setRowUrl (st : St) (id u : String) : St :=
  { st with db := ⟨st.db.conversations.map
      (fun c => if c.id = id then { c with recording_url := u } else c)⟩ }

/-! ### C1: scratch-file cleanup in `createRecording` -/

/-- C1 (counterexample): the claim that the scratch file is removed on every
exit path fails when the duration probe rejects — with a failing probe, the
scratch file is still present in the temporary directory afterwards, and the
handler exits with the probe's error. -/
theorem createRecording_scratch_survives_probe_failure :
    joinPath tmpdir (envProbeFail.tempName ++ FILE_EXTENSION) ∈
        (createRecording envProbeFail sampleReq st0).2.fs ∧
      (createRecording envProbeFail sampleReq st0).1 = .error "probe failed" :=
  ⟨by decide, rfl⟩

/-- C1 (amended): when the duration measurement succeeds, the scratch audio
file is removed before the handler proceeds, so it is absent from the final
state on every exit path from that point on (transcription failure
included); when the measurement itself fails, the scratch file is not
removed. -/
theorem createRecording_scratch_removed_on_probe_success
    (env : Env) (req : CreateRequest) (st : St) (d : Rat)
    (hp : env.probeResult = .ok d) :
    joinPath tmpdir (env.tempName ++ FILE_EXTENSION) ∉
      (createRecording env req st).2.fs := by
  unfold createRecording
  rw [hp]
  cases htr : env.transcribeResult with
  | error e => simp [unlink, writeFile]
  | ok tr => simp [unlink, writeFile]

/-- C1 (witness): the amended theorem applied at a concrete successful
environment. -/
theorem createRecording_scratch_removed_on_probe_success_witness :
    joinPath tmpdir (sampleEnv.tempName ++ FILE_EXTENSION) ∉
      (createRecording sampleEnv sampleReq st0).2.fs :=
  createRecording_scratch_removed_on_probe_success sampleEnv sampleReq st0 42 rfl

/-! ### C2, C3, C10: the stored row of a successful `createRecording` -/

/-- C2: for every successful `createRecording` call, when the transcription
result supplies no title the stored Recording's title is
`conversation_<current-date-string>`, and when it supplies a title that
title is stored unchanged; the returned recording is exactly the row
inserted into the database. -/
theorem createRecording_title_default
    (env : Env) (req : CreateRequest) (st : St) (d : Rat) (tr : TranscribeResult)
    (hp : env.probeResult = .ok d) (htr : env.transcribeResult = .ok tr) :
    ∃ resp, (createRecording env req st).1 = .ok resp ∧
      (createRecording env req st).2.db.conversations
        = resp.recording :: st.db.conversations ∧
      (tr.title = none →
        resp.recording.title = "conversation_" ++ env.nowDate) ∧
      (∀ t, tr.title = some t → resp.recording.title = t) := by
  unfold createRecording
  rw [hp, htr]
  refine ⟨_, rfl, rfl, ?_, ?_⟩
  · intro h
    simp [h]
  · intro t h
    simp [h]

/-- C2 (witness): the theorem applied at a concrete environment whose
transcription result supplies no title. -/
theorem createRecording_title_default_witness :
    ∃ resp, (createRecording sampleEnv sampleReq st0).1 = .ok resp ∧
      (createRecording sampleEnv sampleReq st0).2.db.conversations
        = resp.recording :: st0.db.conversations ∧
      (sampleTr.title = none →
        resp.recording.title = "conversation_" ++ sampleEnv.nowDate) ∧
      (∀ t, sampleTr.title = some t → resp.recording.title = t) :=
  createRecording_title_default sampleEnv sampleReq st0 42 sampleTr rfl rfl

/-- C3: for every successful `createRecording` call, the returned
Recording's duration equals the probed playback length rounded to the
nearest whole second with JavaScript `Math.round`. -/
theorem createRecording_duration_rounded
    (env : Env) (req : CreateRequest) (st : St) (d : Rat) (tr : TranscribeResult)
    (hp : env.probeResult = .ok d) (htr : env.transcribeResult = .ok tr) :
    ∃ resp, (createRecording env req st).1 = .ok resp ∧
      resp.recording.duration = jsRound d := by
  unfold createRecording
  rw [hp, htr]
  exact ⟨_, rfl, rfl⟩

/-- C3 (witness): the theorem applied at a concrete environment probing a
42-second buffer. -/
theorem createRecording_duration_rounded_witness :
    ∃ resp, (createRecording sampleEnv sampleReq st0).1 = .ok resp ∧
      resp.recording.duration = jsRound 42 :=
  createRecording_duration_rounded sampleEnv sampleReq st0 42 sampleTr rfl rfl

/-- C10: for every `createRecording` call whose transcription result lacks
the topic list (respectively the utterance list), the handler still
completes successfully and the stored Recording has no Topic (respectively
Utterance) child rows. -/
theorem createRecording_missing_children
    (env : Env) (req : CreateRequest) (st : St) (d : Rat) (tr : TranscribeResult)
    (hp : env.probeResult = .ok d) (htr : env.transcribeResult = .ok tr) :
    ∃ resp, (createRecording env req st).1 = .ok resp ∧
      (tr.allTopics = none → resp.recording.topics = []) ∧
      (tr.allUtterances = none → resp.recording.utterances = []) := by
  unfold createRecording
  rw [hp, htr]
  refine ⟨_, rfl, ?_, ?_⟩
  · intro h
    simp [h]
  · intro h
    simp [h]

/-- C10 (witness): the theorem applied at a concrete environment whose
transcription result has neither list. -/
theorem createRecording_missing_children_witness :
    ∃ resp, (createRecording envNoChildren sampleReq st0).1 = .ok resp ∧
      (trNoChildren.allTopics = none → resp.recording.topics = []) ∧
      (trNoChildren.allUtterances = none → resp.recording.utterances = []) :=
  createRecording_missing_children envNoChildren sampleReq st0 42 trNoChildren
    rfl rfl

/-! ### C4: `getRecording` on present and absent ids -/

/-- C4: for every recording id, `getRecording` on an id with no stored row
returns the absent result without raising an error, and on an existing id
returns the row (its Topics and Utterances included, as they are inlined in
`Conversation`) together with a freshly minted presigned URL attached as
`recordingUrl`. -/
theorem getRecording_found_or_absent (env : Env) (req : GetRequest) (st : St) :
    (findUnique st.db req.recordingId = none → getRecording env req st = .ok none) ∧
    (∀ c, findUnique st.db req.recordingId = some c →
      getRecording env req st
        = .ok (some ⟨c, env.presign BUCKET_NAME c.file_path⟩)) := by
  constructor
  · intro h
    unfold getRecording
    rw [h]
  · intro c h
    unfold getRecording
    rw [h]

/-- C4 (witness): the theorem applied on the empty database with a
nonexistent id, yielding the absent result. -/
theorem getRecording_found_or_absent_witness :
    getRecording sampleEnv ⟨"missing"⟩ st0 = .ok none :=
  (getRecording_found_or_absent sampleEnv ⟨"missing"⟩ st0).1 rfl

/-! ### C5: `updateRecording` frame conditions -/

/-- C5: for every `updateRecording` call on an existing row, an absent
transcript leaves the stored transcript unchanged, an absent title leaves
the stored title unchanged, and every field other than title and transcript
is left untouched. -/
theorem updateRecording_frame (req : UpdateRequest) (st : St) (c : Conversation)
    (hc : findUnique st.db req.recordingId = some c) :
    ∃ c2, (updateRecording req st).1 = .ok c2 ∧
      (req.transcript = none → c2.transcript = c.transcript) ∧
      (req.title = none → c2.title = c.title) ∧
      c2.id = c.id ∧ c2.userId = c.userId ∧
      c2.recording_url = c.recording_url ∧ c2.file_path = c.file_path ∧
      c2.summary = c.summary ∧ c2.topics = c.topics ∧
      c2.utterances = c.utterances ∧ c2.duration = c.duration ∧
      c2.createdAt = c.createdAt ∧ c2.updatedAt = c.updatedAt := by
  unfold findUnique at hc
  unfold updateRecording prismaUpdate
  rw [hc]
  refine ⟨_, rfl, ?_, ?_, rfl, rfl, rfl, rfl, rfl, rfl, rfl, rfl, rfl, rfl⟩
  · intro h
    simp [h]
  · intro h
    simp [h]

/-- C5 (witness): the theorem applied on a one-row database with a request
supplying only a new title. -/
theorem updateRecording_frame_witness :
    ∃ c2, (updateRecording ⟨"rec1", some "new title", none⟩ stRow1).1 = .ok c2 ∧
      ((⟨"rec1", some "new title", none⟩ : UpdateRequest).transcript = none →
        c2.transcript = row1.transcript) ∧
      ((⟨"rec1", some "new title", none⟩ : UpdateRequest).title = none →
        c2.title = row1.title) ∧
      c2.id = row1.id ∧ c2.userId = row1.userId ∧
      c2.recording_url = row1.recording_url ∧ c2.file_path = row1.file_path ∧
      c2.summary = row1.summary ∧ c2.topics = row1.topics ∧
      c2.utterances = row1.utterances ∧ c2.duration = row1.duration ∧
      c2.createdAt = row1.createdAt ∧ c2.updatedAt = row1.updatedAt :=
  updateRecording_frame ⟨"rec1", some "new title", none⟩ stRow1 row1 rfl

/-! ### C6: `listRecordings` projection -/

/-- C6: for every user id and database state, each element of the
`listRecordings` response is the `listProject` projection of a stored row of
that user — carrying only id, title, topics, createdAt, updatedAt and
duration, and no transcript, summary or utterances field (the response type
`ListItem` has no such fields). -/
theorem listRecordings_projected (req : ListRequest) (st : St) :
    ∀ item ∈ listRecordings req st, ∃ c ∈ st.db.conversations,
      c.userId = req.userId ∧ item = listProject c := by
  intro item hitem
  unfold listRecordings at hitem
  rw [List.mem_map] at hitem
  obtain ⟨c, hc, hproj⟩ := hitem
  rw [List.mem_filter] at hc
  exact ⟨c, hc.1, by simpa using hc.2, hproj.symm⟩

/-- C6 (witness): the theorem applied at a concrete response element of a
one-row database. -/
theorem listRecordings_projected_witness :
    ∃ c ∈ stRow1.db.conversations,
      c.userId = ("user1" : String) ∧ listProject row1 = listProject c :=
  listRecordings_projected ⟨"user1"⟩ stRow1 (listProject row1) (by decide)

/-! ### C7: `deleteRecording` on an absent id -/

/-- C7: for every recording id with no stored row, `deleteRecording`
propagates the persistence layer's not-found failure to its caller and
leaves the database state unchanged. -/
theorem deleteRecording_missing_propagates (req : DeleteRequest) (st : St)
    (h : findUnique st.db req.recordingId = none) :
    (deleteRecording req st).1 = .error "P2025: record to delete does not exist" ∧
      (deleteRecording req st).2 = st := by
  unfold findUnique at h
  unfold deleteRecording prismaDelete
  rw [h]
  exact ⟨rfl, rfl⟩

/-- C7 (witness): the theorem applied on the empty database. -/
theorem deleteRecording_missing_propagates_witness :
    (deleteRecording ⟨"missing"⟩ st0).1
        = .error "P2025: record to delete does not exist" ∧
      (deleteRecording ⟨"missing"⟩ st0).2 = st0 :=
  deleteRecording_missing_propagates ⟨"missing"⟩ st0 rfl

/-! ### C8: the playback-status callback -/

/-- C8: for every playback-status callback invocation whose status is
loaded, the observed position is set from the status's position, the
observed duration from the status's duration (0 when absent), and whenever
the status also reports that playback just finished, the playing flag is
cleared. -/
theorem onPlaybackStatusUpdate_loaded (status : PlaybackStatus) (s : PlayerState)
    (h : status.isLoaded = true) :
    (onPlaybackStatusUpdate status s).position = status.positionMillis ∧
      (onPlaybackStatusUpdate status s).duration = status.durationMillis.getD 0 ∧
      (status.didJustFinish = true →
        (onPlaybackStatusUpdate status s).isPlaying = false) := by
  unfold onPlaybackStatusUpdate
  rw [h]
  cases hf : status.didJustFinish <;> simp

/-- C8 (witness): the theorem applied at a concrete loaded status reporting
natural completion. -/
theorem onPlaybackStatusUpdate_loaded_witness :
    (onPlaybackStatusUpdate ⟨true, 900, some 1000, true⟩ ⟨0, 0, true⟩).position
        = (⟨true, 900, some 1000, true⟩ : PlaybackStatus).positionMillis ∧
      (onPlaybackStatusUpdate ⟨true, 900, some 1000, true⟩ ⟨0, 0, true⟩).duration
        = (⟨true, 900, some 1000, true⟩ : PlaybackStatus).durationMillis.getD 0 ∧
      ((⟨true, 900, some 1000, true⟩ : PlaybackStatus).didJustFinish = true →
        (onPlaybackStatusUpdate ⟨true, 900, some 1000, true⟩
          ⟨0, 0, true⟩).isPlaying = false) :=
  onPlaybackStatusUpdate_loaded ⟨true, 900, some 1000, true⟩ ⟨0, 0, true⟩ rfl

/-! ### C9: the stored `recording_url` field is written empty and never read -/

/-- Rewriting the `recording_url` of the row with the sought id commutes
with the lookup: the lookup finds the rewritten row. -/
theorem find?_setRowUrl (l : List Conversation) (id u : String) :
    (l.map (fun c => if c.id = id then { c with recording_url := u } else c)).find?
        (fun c => c.id = id)
      = (l.find? (fun c => c.id = id)).map
          (fun c => { c with recording_url := u }) := by
  induction l with
  | nil => rfl
  | cons a l ih =>
    by_cases h : a.id = id
    · simp [List.find?_cons, h]
    · simp [List.find?_cons, h, ih]

/-- C9: every Recording row written by `createRecording` has its stored
`recording_url` equal to the empty string, and the `recordingUrl` of a
`getRecording` response is minted at read time from the row's `file_path`:
replacing the stored `recording_url` by an arbitrary string changes nothing
in the minted URL. -/
theorem recording_url_written_empty_never_read
    (env : Env) (req : CreateRequest) (st : St) (d : Rat) (tr : TranscribeResult)
    (g : GetRequest) (st2 : St) (c : Conversation) (u : String)
    (hp : env.probeResult = .ok d) (htr : env.transcribeResult = .ok tr)
    (hc : findUnique st2.db g.recordingId = some c) :
    (∃ resp, (createRecording env req st).1 = .ok resp ∧
      resp.recording.recording_url = "" ∧
      (createRecording env req st).2.db.conversations
        = resp.recording :: st.db.conversations) ∧
    getRecording env g st2
      = .ok (some ⟨c, env.presign BUCKET_NAME c.file_path⟩) ∧
    getRecording env g (setRowUrl st2 g.recordingId u)
      = .ok (some ⟨{ c with recording_url := u },
          env.presign BUCKET_NAME c.file_path⟩) := by
  refine ⟨?_, ?_, ?_⟩
  · unfold createRecording
    rw [hp, htr]
    exact ⟨_, rfl, rfl, rfl⟩
  · unfold getRecording
    rw [hc]
  · unfold findUnique at hc
    unfold getRecording findUnique setRowUrl
    rw [find?_setRowUrl, hc]
    rfl

/-- C9 (witness): the theorem applied at a concrete environment, a one-row
database and a concrete replacement url. -/
theorem recording_url_written_empty_never_read_witness :
    (∃ resp, (createRecording sampleEnv sampleReq st0).1 = .ok resp ∧
      resp.recording.recording_url = "" ∧
      (createRecording sampleEnv sampleReq st0).2.db.conversations
        = resp.recording :: st0.db.conversations) ∧
    getRecording sampleEnv ⟨"rec1"⟩ stRow1
      = .ok (some ⟨row1, sampleEnv.presign BUCKET_NAME row1.file_path⟩) ∧
    getRecording sampleEnv ⟨"rec1"⟩ (setRowUrl stRow1 "rec1" "other")
      = .ok (some ⟨{ row1 with recording_url := "other" },
          sampleEnv.presign BUCKET_NAME row1.file_path⟩) :=
  recording_url_written_empty_never_read sampleEnv sampleReq st0 42 sampleTr
    ⟨"rec1"⟩ stRow1 row1 "other" rfl rfl rfl

end ConverseChronicle
